import Mathlib

/-!
Shallow embedding of the SmartLibrary frontend session/gateway core:
the axios-based API gateway (`src/services/api.js`) and the
authentication context (`AuthProvider`), together with proofs of the
specified properties.

JavaScript runtime values that the code manipulates (request bodies,
response payloads, the in-memory token and user) are modelled by the
inductive type `JsValue`.  JSON numeric literals are modelled as
integers (no claim involves fractional numbers).  Strings stored in
`localStorage` are modelled as `Option String` (`none` = key absent).
-/

set_option autoImplicit false

/-- A JavaScript value: `null`, `undefined`, booleans, (integral)
numbers, strings, arrays and plain objects. -/
inductive JsValue where
  | vNull
  | vUndefined
  | vBool (b : Bool)
  | vNum (n : Int)
  | vStr (s : String)
  | vArr (elems : List JsValue)
  | vObj (fields : List (String × JsValue))
deriving Repr

/-- JavaScript truthiness of a value (`if (v)` / `!!v`):
`null`, `undefined`, `false`, `0` and the empty string are falsy;
every array and object is truthy. -/
def jsTruthy : JsValue → Bool
  | .vNull => false
  | .vUndefined => false
  | .vBool b => b
  | .vNum n => n != 0
  | .vStr s => s != ""
  | .vArr _ => true
  | .vObj _ => true

/-- Look a key up in an object field list (first match wins). -/
def getField : List (String × JsValue) → String → JsValue
  | [], _ => .vUndefined
  | (k2, v) :: rest, k => if k2 = k then v else getField rest k

/-- JavaScript property access `v[k]`: reads a field of an object,
yields `undefined` on a missing field or a non-object. -/
def JsValue.get (v : JsValue) (k : String) : JsValue :=
  match v with
  | .vObj fs => getField fs k
  | _ => .vUndefined

/-- Optional chaining `v?.k`: `undefined` when `v` is `null` or
`undefined`, otherwise property access. -/
def optChain (v : JsValue) (k : String) : JsValue :=
  match v with
  | .vNull => .vUndefined
  | .vUndefined => .vUndefined
  | _ => v.get k

/-- Strict equality `v === s` against a string literal: true exactly
when `v` is that string. -/
def strictEqStr (v : JsValue) (s : String) : Bool :=
  match v with
  | .vStr t => t = s
  | _ => false

mutual

/-- JavaScript string coercion of a value, as used by template
literals and by `localStorage.setItem`.  Arrays join their elements
with commas (with `null`/`undefined` elements rendered empty); plain
objects render as `[object Object]`. -/
def jsToString : JsValue → String
  | .vNull => "null"
  | .vUndefined => "undefined"
  | .vBool b => if b then "true" else "false"
  | .vNum n => toString n
  | .vStr s => s
  | .vArr xs => String.intercalate "," (jsArrStrings xs)
  | .vObj _ => "[object Object]"

/-- Stringification of the elements of an array, as `Array.toString`
renders them. -/
def jsArrStrings : List JsValue → List String
  | [] => []
  | .vNull :: rest => "" :: jsArrStrings rest
  | .vUndefined :: rest => "" :: jsArrStrings rest
  | v :: rest => jsToString v :: jsArrStrings rest

end

/-- Escape a string for inclusion in JSON output (quote, backslash and
the common control characters). -/
def jsonQuote (s : String) : String :=
  let esc : Char → String := fun c =>
    if c = '"' then "\\\""
    else if c = '\\' then "\\\\"
    else if c = '\n' then "\\n"
    else if c = '\t' then "\\t"
    else if c = '\r' then "\\r"
    else String.singleton c
  "\"" ++ String.join (s.toList.map esc) ++ "\""

mutual

/-- `JSON.stringify` on a value.  `undefined` has no JSON
representation (`none`); object fields whose value is `undefined` are
omitted; `undefined` array elements serialize as `null`. -/
def jsonStringifyVal : JsValue → Option String
  | .vNull => some "null"
  | .vUndefined => none
  | .vBool b => some (if b then "true" else "false")
  | .vNum n => some (toString n)
  | .vStr s => some (jsonQuote s)
  | .vArr xs => some ("[" ++ String.intercalate "," (jsonStringifyArr xs) ++ "]")
  | .vObj fs => some ("\x7b" ++ String.intercalate "," (jsonStringifyObj fs) ++ "\x7d")

/-- Serialize array elements; an `undefined` element becomes `null`. -/
def jsonStringifyArr : List JsValue → List String
  | [] => []
  | v :: rest => ((jsonStringifyVal v).getD "null") :: jsonStringifyArr rest

/-- Serialize object fields, dropping fields whose value does not
serialize (`undefined`). -/
def jsonStringifyObj : List (String × JsValue) → List String
  | [] => []
  | (k, v) :: rest =>
    match jsonStringifyVal v with
    | some out => (jsonQuote k ++ ":" ++ out) :: jsonStringifyObj rest
    | none => jsonStringifyObj rest

end

/-- `JSON.stringify` coerced to a string the way a storage write uses
it (an `undefined` result is stored as the text `undefined`). -/
def jsonStringifyStr (v : JsValue) : String :=
  (jsonStringifyVal v).getD "undefined"

/-- JSON whitespace characters. -/
def jsonWs (c : Char) : Bool :=
  c = ' ' || c = '\n' || c = '\t' || c = '\r'

/-- Parse a JSON string body (after the opening quote), handling the
common backslash escapes; returns the string and the rest of the
input.  `\u` escapes decode their four hex digits to a character. -/
def parseJsonString : List Char → String → Option (String × List Char)
  | [], _ => none
  | c :: rest, acc =>
    if c = '"' then some (acc, rest)
    else if c = '\\' then
      match rest with
      | [] => none
      | e :: rest2 =>
        if e = '"' then parseJsonString rest2 (acc ++ "\"")
        else if e = '\\' then parseJsonString rest2 (acc ++ "\\")
        else if e = '/' then parseJsonString rest2 (acc ++ "/")
        else if e = 'n' then parseJsonString rest2 (acc ++ "\n")
        else if e = 't' then parseJsonString rest2 (acc ++ "\t")
        else if e = 'r' then parseJsonString rest2 (acc ++ "\r")
        else if e = 'b' then parseJsonString rest2 (acc ++ "\x08")
        else if e = 'f' then parseJsonString rest2 (acc ++ "\x0c")
        else if e = 'u' then
          match rest2 with
          | h1 :: h2 :: h3 :: h4 :: rest3 =>
            let hex : Char → Option Nat := fun h =>
              if h.isDigit then some (h.toNat - 48)
              else if 'a' ≤ h ∧ h ≤ 'f' then some (h.toNat - 87)
              else if 'A' ≤ h ∧ h ≤ 'F' then some (h.toNat - 55)
              else none
            match hex h1, hex h2, hex h3, hex h4 with
            | some a, some b, some c2, some d =>
              parseJsonString rest3
                (acc ++ String.singleton (Char.ofNat (a * 4096 + b * 256 + c2 * 16 + d)))
            | _, _, _, _ => none
          | _ => none
        else none
    else parseJsonString rest (acc ++ String.singleton c)
termination_by cs _ => cs.length
decreasing_by all_goals (simp_all [List.length]; try omega)

/-- Parse an optionally signed run of decimal digits. -/
def parseJsonInt : List Char → Option (Int × List Char)
  | [] => none
  | c :: rest =>
    if c = '-' then
      match rest.span Char.isDigit with
      | ([], _) => none
      | (ds, rest2) => some (-(String.mk ds).toNat!, rest2)
    else
      match (c :: rest).span Char.isDigit with
      | ([], _) => none
      | (ds, rest2) => some ((String.mk ds).toNat!, rest2)

mutual

/-- Recursive-descent JSON parser (fuel-indexed).  Models the
behaviour of `JSON.parse` on the grammar this application stores
(numeric literals restricted to integers).  Returns the parsed value
and the unconsumed input, or `none` on malformed input. -/
def parseJsonVal : Nat → List Char → Option (JsValue × List Char)
  | 0, _ => none
  | fuel + 1, cs =>
    match cs.dropWhile jsonWs with
    | [] => none
    | c :: rest =>
      if c = 'n' then
        match rest with
        | 'u' :: 'l' :: 'l' :: r => some (.vNull, r)
        | _ => none
      else if c = 't' then
        match rest with
        | 'r' :: 'u' :: 'e' :: r => some (.vBool true, r)
        | _ => none
      else if c = 'f' then
        match rest with
        | 'a' :: 'l' :: 's' :: 'e' :: r => some (.vBool false, r)
        | _ => none
      else if c = '"' then
        match parseJsonString rest "" with
        | some (s, r) => some (.vStr s, r)
        | none => none
      else if c.toNat = 91 then
        -- opening square bracket: array
        match (c :: rest).drop 1 |>.dropWhile jsonWs with
        | d :: r2 =>
          if d.toNat = 93 then some (.vArr [], r2)
          else
            match parseJsonItems fuel (c :: rest).tail with
            | some (xs, r3) => some (.vArr xs, r3)
            | none => none
        | [] => none
      else if c.toNat = 123 then
        -- opening curly brace: object
        match rest.dropWhile jsonWs with
        | d :: r2 =>
          if d.toNat = 125 then some (.vObj [], r2)
          else
            match parseJsonFields fuel rest with
            | some (fs, r3) => some (.vObj fs, r3)
            | none => none
        | [] => none
      else
        match parseJsonInt (c :: rest) with
        | some (n, r) => some (.vNum n, r)
        | none => none

/-- Parse the comma-separated items of a non-empty JSON array,
consuming the closing square bracket. -/
def parseJsonItems : Nat → List Char → Option (List JsValue × List Char)
  | 0, _ => none
  | fuel + 1, cs =>
    match parseJsonVal fuel cs with
    | none => none
    | some (v, r) =>
      match r.dropWhile jsonWs with
      | d :: r2 =>
        if d = ',' then
          match parseJsonItems fuel r2 with
          | some (xs, r3) => some (v :: xs, r3)
          | none => none
        else if d.toNat = 93 then some ([v], r2)
        else none
      | [] => none

/-- Parse the comma-separated fields of a non-empty JSON object,
consuming the closing curly brace. -/
def parseJsonFields : Nat → List Char → Option (List (String × JsValue) × List Char)
  | 0, _ => none
  | fuel + 1, cs =>
    match cs.dropWhile jsonWs with
    | q :: r0 =>
      if q = '"' then
        match parseJsonString r0 "" with
        | none => none
        | some (k, r1) =>
          match r1.dropWhile jsonWs with
          | colon :: r2 =>
            if colon = ':' then
              match parseJsonVal fuel r2 with
              | none => none
              | some (v, r3) =>
                match r3.dropWhile jsonWs with
                | d :: r4 =>
                  if d = ',' then
                    match parseJsonFields fuel r4 with
                    | some (fs, r5) => some ((k, v) :: fs, r5)
                    | none => none
                  else if d.toNat = 125 then some ([(k, v)], r4)
                  else none
                | [] => none
            else none
          | [] => none
      else none
    | [] => none

end

/-- `JSON.parse` on a whole string: parse one value and require only
whitespace to remain.  `none` models the thrown `SyntaxError`. -/
def jsonParse (s : String) : Option JsValue :=
  match parseJsonVal (s.length + 1) s.toList with
  | some (v, rest) => if rest.dropWhile jsonWs = [] then some v else none
  | none => none

/-- Characters `encodeURIComponent` leaves unescaped: alphanumerics
and `- _ . ! ~ * ( )` together with the apostrophe (code point 39). -/
def uriUnreserved (c : Char) : Bool :=
  c.isAlphanum || c = '-' || c = '_' || c = '.' || c = '!' || c = '~' ||
    c = '*' || c.toNat = 39 || c.toNat = 40 || c.toNat = 41

/-- Uppercase hexadecimal digit. -/
def hexDigit (n : Nat) : Char :=
  if n < 10 then Char.ofNat (48 + n) else Char.ofNat (55 + n)

/-- Percent-encode one byte as `%HH`. -/
def percentByte (b : UInt8) : String :=
  let n := b.toNat
  String.mk ['%', hexDigit (n / 16), hexDigit (n % 16)]

/-- `encodeURIComponent`: keep unreserved characters, percent-encode
the UTF-8 bytes of everything else. -/
def encodeURIComponent (s : String) : String :=
  String.join (s.toList.map (fun c =>
    if uriUnreserved c then String.singleton c
    else String.join (((String.singleton c).toUTF8.toList).map percentByte)))

/-! ## Transport and gateway model (src/services/api.js) -/

/-- The configured base URL default (api.js line 4). -/
def API_BASE_URL : String := "http://localhost:8085"

/-- The fixed request timeout in milliseconds (api.js line 5). -/
def API_TIMEOUT : Nat := 10000

/-- The two `localStorage` keys the application uses.  `none` models
an absent key; `localStorage.getItem` returns `null` for it. -/
structure Storage where
  token : Option String
  userInfo : Option String
deriving Repr, DecidableEq

/-- An outgoing request after axios assembles it: method, url,
optional JSON body and the `Authorization` header value (if set). -/
structure Request where
  method : String
  url : String
  body : Option JsValue
  authHeader : Option String
deriving Repr

/-- An HTTP response: status code and decoded body. -/
structure HttpResponse where
  status : Nat
  data : JsValue
deriving Repr

/-- The error object axios rejects with: `response` is present for an
HTTP error status and absent for a network-level failure (timeout,
connection refused), `message` is the human-readable message. -/
structure HttpError where
  response : Option HttpResponse
  message : String
deriving Repr

/-- What the network does with one request: either fails at the
transport level or yields an HTTP response (any status). -/
inductive RawOutcome where
  | netErr (message : String)
  | gotResponse (resp : HttpResponse)
deriving Repr

/-- A backend / network model: the raw outcome of each request. -/
def Transport : Type := Request → RawOutcome

/-- A transport that answers every request with the same response. -/
def constResp (r : HttpResponse) : Transport := fun _ => .gotResponse r

/-- A transport on which every request fails at the network level. -/
def constNetErr (m : String) : Transport := fun _ => .netErr m

/-- The browser-visible mutable state the session/gateway core
touches: the two storage keys, the record of `window.location.href`
assignments, and the `AuthProvider` React state (`token`,
`currentUser` as JavaScript values, plus the `loading` flag). -/
structure AppState where
  storage : Storage
  navigations : List String
  token : JsValue
  currentUser : JsValue
  loading : Bool
deriving Repr

/-- Request interceptor (api.js lines 17-28): read the `token`
storage key; when truthy, set `Authorization: Bearer <token>`. -/
def applyRequestInterceptor (store : Storage) (config : Request) : Request :=
  match store.token with
  | some t => if t ≠ "" then { config with authHeader := some ("Bearer " ++ t) } else config
  | none => config

/-- Response interceptor, error branch (api.js lines 31-42): on a 401
response remove both storage keys and navigate to `/login`; in every
case the error is re-thrown (`Promise.reject`). -/
def applyResponseInterceptorErr (st : AppState) (e : HttpError) : AppState :=
  match e.response with
  | some r =>
    if r.status = 401 then
      { st with storage := { token := none, userInfo := none },
                navigations := st.navigations ++ ["/login"] }
    else st
  | none => st

/-- The axios error for a non-2xx response. -/
def httpErrorOf (r : HttpResponse) : HttpError :=
  { response := some r, message := "Request failed with status code " ++ toString r.status }

/-- One call through the `api` axios instance: run the request
interceptor, perform the transport, treat any status outside
[200, 300) as a rejection (axios default `validateStatus`) and run the
response interceptor on the error path.  `Except.error` models the
rejected promise reaching the caller. -/
def runAxios (t : Transport) (st : AppState) (config : Request) :
    AppState × Except HttpError HttpResponse :=
  match t (applyRequestInterceptor st.storage config) with
  | .netErr m =>
    let e : HttpError := { response := none, message := m }
    (applyResponseInterceptorErr st e, .error e)
  | .gotResponse r =>
    if 200 ≤ r.status ∧ r.status < 300 then (st, .ok r)
    else
      let e := httpErrorOf r
      (applyResponseInterceptorErr st e, .error e)

/-- Build a GET request (no body, no preset headers). -/
def getReq (url : String) : Request :=
  { method := "get", url := url, body := none, authHeader := none }

/-- Build a POST request with a JSON body. -/
def postReq (url : String) (body : JsValue) : Request :=
  { method := "post", url := url, body := some body, authHeader := none }

/-- Build a PUT request with an optional JSON body. -/
def putReq (url : String) (body : Option JsValue) : Request :=
  { method := "put", url := url, body := body, authHeader := none }

/-- Build a DELETE request. -/
def deleteReq (url : String) : Request :=
  { method := "delete", url := url, body := none, authHeader := none }

/-- The uniform result shape every wrapped gateway operation returns:
`success`, and optionally `data` and `error` (`none` = field absent
from the object literal). -/
structure GatewayResult where
  success : Bool
  data : Option JsValue
  error : Option JsValue
deriving Repr

/-- `error.response?.data || fallback`: the server payload when it is
present and truthy, otherwise the operation's fallback string. -/
def errorField (e : HttpError) (fallback : String) : JsValue :=
  match e.response with
  | some r => if jsTruthy r.data then r.data else .vStr fallback
  | none => .vStr fallback

/-- The shared try/catch of a wrapped operation: on resolution return
`{success: true, data: response.data}`, on rejection build the
operation's failure object with `wrapErr`. -/
def axiosCall (t : Transport) (st : AppState) (config : Request)
    (wrapErr : HttpError → GatewayResult) : AppState × GatewayResult :=
  match runAxios t st config with
  | (st2, .ok r) => (st2, { success := true, data := some r.data, error := none })
  | (st2, .error e) => (st2, wrapErr e)

/-- Failure object of an operation without a `data` default:
`{success: false, error: <payload or fallback>}`. -/
def failPlain (fallback : String) (e : HttpError) : GatewayResult :=
  { success := false, data := none, error := some (errorField e fallback) }

/-- Failure object of a list operation: additionally `data: []`. -/
def failList (fallback : String) (e : HttpError) : GatewayResult :=
  { success := false, data := some (.vArr []), error := some (errorField e fallback) }

/-- The formatted error text the three admin list operations build:
`<label>: ${error.response?.status} ${error.response?.data || error.message}`
with JavaScript template-literal coercions. -/
def adminListErrorText (label : String) (e : HttpError) : String :=
  let statusStr := match e.response with
    | some r => toString r.status
    | none => "undefined"
  let payloadStr := match e.response with
    | some r => if jsTruthy r.data then jsToString r.data else e.message
    | none => e.message
  label ++ ": " ++ statusStr ++ " " ++ payloadStr

/-- Failure object of an admin list operation: `data: []` and the
formatted error text (not the raw payload). -/
def failAdminList (label : String) (e : HttpError) : GatewayResult :=
  { success := false, data := some (.vArr []),
    error := some (.vStr (adminListErrorText label e)) }

/-! ## APIService operations (api.js lines 45-325) -/

def APIService.login (t : Transport) (st : AppState) (credentials : JsValue) :
    AppState × GatewayResult :=
  axiosCall t st (postReq "/api/auth/login" credentials) (failPlain "Login failed")

def APIService.register (t : Transport) (st : AppState) (userData : JsValue) :
    AppState × GatewayResult :=
  axiosCall t st (postReq "/api/auth/register" userData) (failPlain "Registration failed")

def APIService.getAvailableBooks (t : Transport) (st : AppState) :
    AppState × GatewayResult :=
  axiosCall t st (getReq "/api/user/books/available") (failList "Failed to fetch books")

def APIService.searchBooks (t : Transport) (st : AppState) (query : String) :
    AppState × GatewayResult :=
  axiosCall t st (getReq ("/api/user/books/search?query=" ++ encodeURIComponent query))
    (failList "Search failed")

def APIService.getBookById (t : Transport) (st : AppState) (id : String) :
    AppState × GatewayResult :=
  axiosCall t st (getReq ("/api/user/books/" ++ id)) (failPlain "Failed to fetch book details")

def APIService.bookBook (t : Transport) (st : AppState) (bookingData : JsValue) :
    AppState × GatewayResult :=
  axiosCall t st (postReq "/api/user/books/book" bookingData) (failPlain "Failed to book the book")

def APIService.getUserBookings (t : Transport) (st : AppState) :
    AppState × GatewayResult :=
  axiosCall t st (getReq "/api/user/bookings") (failList "Failed to fetch bookings")

def APIService.getActiveBookings (t : Transport) (st : AppState) :
    AppState × GatewayResult :=
  axiosCall t st (getReq "/api/user/bookings/active") (failList "Failed to fetch active bookings")

def APIService.returnBook (t : Transport) (st : AppState) (bookingId : String) :
    AppState × GatewayResult :=
  axiosCall t st (putReq ("/api/user/bookings/" ++ bookingId ++ "/return") none)
    (failPlain "Failed to return book")

def APIService.sendChatMessage (t : Transport) (st : AppState) (message language : String) :
    AppState × GatewayResult :=
  axiosCall t st
    (postReq "/api/user/chat" (.vObj [("message", .vStr message), ("language", .vStr language)]))
    (failPlain "Failed to send message")

/-- Generic POST (api.js lines 176-179): no try/catch — the raw
response is returned and a rejection propagates to the caller. -/
def APIService.post (t : Transport) (st : AppState) (endpoint : String) (data : JsValue) :
    AppState × Except HttpError HttpResponse :=
  runAxios t st (postReq endpoint data)

/-- Generic GET (api.js lines 182-185): no try/catch — the raw
response is returned and a rejection propagates to the caller. -/
def APIService.get (t : Transport) (st : AppState) (endpoint : String) :
    AppState × Except HttpError HttpResponse :=
  runAxios t st (getReq endpoint)

def APIService.getAllBooks (t : Transport) (st : AppState) :
    AppState × GatewayResult :=
  axiosCall t st (getReq "/api/admin/books") (failAdminList "Failed to fetch all books")

def APIService.createBook (t : Transport) (st : AppState) (bookData : JsValue) :
    AppState × GatewayResult :=
  axiosCall t st (postReq "/api/admin/books" bookData) (failPlain "Failed to create book")

def APIService.updateBook (t : Transport) (st : AppState) (id : String) (bookData : JsValue) :
    AppState × GatewayResult :=
  axiosCall t st (putReq ("/api/admin/books/" ++ id) (some bookData))
    (failPlain "Failed to update book")

def APIService.deleteBook (t : Transport) (st : AppState) (id : String) :
    AppState × GatewayResult :=
  axiosCall t st (deleteReq ("/api/admin/books/" ++ id)) (failPlain "Failed to delete book")

def APIService.updateBookQuantity (t : Transport) (st : AppState) (id : String) (quantity : Int) :
    AppState × GatewayResult :=
  axiosCall t st
    (putReq ("/api/admin/books/" ++ id ++ "/quantity?quantity=" ++ toString quantity) none)
    (failPlain "Failed to update book quantity")

def APIService.getAllUsers (t : Transport) (st : AppState) :
    AppState × GatewayResult :=
  axiosCall t st (getReq "/api/admin/users") (failAdminList "Failed to fetch users")

def APIService.getUserById (t : Transport) (st : AppState) (id : String) :
    AppState × GatewayResult :=
  axiosCall t st (getReq ("/api/admin/users/" ++ id)) (failPlain "Failed to fetch user")

def APIService.updateUser (t : Transport) (st : AppState) (id : String) (userData : JsValue) :
    AppState × GatewayResult :=
  axiosCall t st (putReq ("/api/admin/users/" ++ id) (some userData))
    (failPlain "Failed to update user")

def APIService.deleteUser (t : Transport) (st : AppState) (id : String) :
    AppState × GatewayResult :=
  axiosCall t st (deleteReq ("/api/admin/users/" ++ id)) (failPlain "Failed to delete user")

def APIService.getAllBookings (t : Transport) (st : AppState) :
    AppState × GatewayResult :=
  axiosCall t st (getReq "/api/admin/bookings") (failAdminList "Failed to fetch bookings")

def APIService.adminReturnBook (t : Transport) (st : AppState) (bookingId : String) :
    AppState × GatewayResult :=
  axiosCall t st (putReq ("/api/admin/bookings/" ++ bookingId ++ "/return") none)
    (failPlain "Failed to return book")

/-- The catalog of wrapped (try/catch) APIService operations.  The
generic `post`/`get` helpers are not in this catalog: they have no
try/catch. -/
inductive NamedOp where
  | login | register | getAvailableBooks | searchBooks | getBookById | bookBook
  | getUserBookings | getActiveBookings | returnBook | sendChatMessage
  | getAllBooks | createBook | updateBook | deleteBook | updateBookQuantity
  | getAllUsers | getUserById | updateUser | deleteUser | getAllBookings | adminReturnBook
deriving Repr, DecidableEq

/-- A uniform bundle for the arguments the catalog operations take. -/
structure OpArgs where
  body : JsValue
  idStr : String
  query : String
  message : String
  language : String
  quantity : Int

/-- Dispatch a catalog operation to its definition. -/
def runNamedOp (t : Transport) (st : AppState) (op : NamedOp) (a : OpArgs) :
    AppState × GatewayResult :=
  match op with
  | .login => APIService.login t st a.body
  | .register => APIService.register t st a.body
  | .getAvailableBooks => APIService.getAvailableBooks t st
  | .searchBooks => APIService.searchBooks t st a.query
  | .getBookById => APIService.getBookById t st a.idStr
  | .bookBook => APIService.bookBook t st a.body
  | .getUserBookings => APIService.getUserBookings t st
  | .getActiveBookings => APIService.getActiveBookings t st
  | .returnBook => APIService.returnBook t st a.idStr
  | .sendChatMessage => APIService.sendChatMessage t st a.message a.language
  | .getAllBooks => APIService.getAllBooks t st
  | .createBook => APIService.createBook t st a.body
  | .updateBook => APIService.updateBook t st a.idStr a.body
  | .deleteBook => APIService.deleteBook t st a.idStr
  | .updateBookQuantity => APIService.updateBookQuantity t st a.idStr a.quantity
  | .getAllUsers => APIService.getAllUsers t st
  | .getUserById => APIService.getUserById t st a.idStr
  | .updateUser => APIService.updateUser t st a.idStr a.body
  | .deleteUser => APIService.deleteUser t st a.idStr
  | .getAllBookings => APIService.getAllBookings t st
  | .adminReturnBook => APIService.adminReturnBook t st a.idStr

/-- The request a catalog operation sends. -/
def opRequest : NamedOp → OpArgs → Request
  | .login, a => postReq "/api/auth/login" a.body
  | .register, a => postReq "/api/auth/register" a.body
  | .getAvailableBooks, _ => getReq "/api/user/books/available"
  | .searchBooks, a => getReq ("/api/user/books/search?query=" ++ encodeURIComponent a.query)
  | .getBookById, a => getReq ("/api/user/books/" ++ a.idStr)
  | .bookBook, a => postReq "/api/user/books/book" a.body
  | .getUserBookings, _ => getReq "/api/user/bookings"
  | .getActiveBookings, _ => getReq "/api/user/bookings/active"
  | .returnBook, a => putReq ("/api/user/bookings/" ++ a.idStr ++ "/return") none
  | .sendChatMessage, a =>
      postReq "/api/user/chat" (.vObj [("message", .vStr a.message), ("language", .vStr a.language)])
  | .getAllBooks, _ => getReq "/api/admin/books"
  | .createBook, a => postReq "/api/admin/books" a.body
  | .updateBook, a => putReq ("/api/admin/books/" ++ a.idStr) (some a.body)
  | .deleteBook, a => deleteReq ("/api/admin/books/" ++ a.idStr)
  | .updateBookQuantity, a =>
      putReq ("/api/admin/books/" ++ a.idStr ++ "/quantity?quantity=" ++ toString a.quantity) none
  | .getAllUsers, _ => getReq "/api/admin/users"
  | .getUserById, a => getReq ("/api/admin/users/" ++ a.idStr)
  | .updateUser, a => putReq ("/api/admin/users/" ++ a.idStr) (some a.body)
  | .deleteUser, a => deleteReq ("/api/admin/users/" ++ a.idStr)
  | .getAllBookings, _ => getReq "/api/admin/bookings"
  | .adminReturnBook, a => putReq ("/api/admin/bookings/" ++ a.idStr ++ "/return") none

/-- The failure wrapper a catalog operation uses in its catch. -/
def opFailWrap : NamedOp → HttpError → GatewayResult
  | .login => failPlain "Login failed"
  | .register => failPlain "Registration failed"
  | .getAvailableBooks => failList "Failed to fetch books"
  | .searchBooks => failList "Search failed"
  | .getBookById => failPlain "Failed to fetch book details"
  | .bookBook => failPlain "Failed to book the book"
  | .getUserBookings => failList "Failed to fetch bookings"
  | .getActiveBookings => failList "Failed to fetch active bookings"
  | .returnBook => failPlain "Failed to return book"
  | .sendChatMessage => failPlain "Failed to send message"
  | .getAllBooks => failAdminList "Failed to fetch all books"
  | .createBook => failPlain "Failed to create book"
  | .updateBook => failPlain "Failed to update book"
  | .deleteBook => failPlain "Failed to delete book"
  | .updateBookQuantity => failPlain "Failed to update book quantity"
  | .getAllUsers => failAdminList "Failed to fetch users"
  | .getUserById => failPlain "Failed to fetch user"
  | .updateUser => failPlain "Failed to update user"
  | .deleteUser => failPlain "Failed to delete user"
  | .getAllBookings => failAdminList "Failed to fetch bookings"
  | .adminReturnBook => failPlain "Failed to return book"

/-- The seven operations whose catch also sets `data: []`. -/
def NamedOp.isListOp : NamedOp → Bool
  | .getAvailableBooks => true
  | .searchBooks => true
  | .getUserBookings => true
  | .getActiveBookings => true
  | .getAllBooks => true
  | .getAllUsers => true
  | .getAllBookings => true
  | _ => false

/-- The three admin list operations whose catch formats the error as
a template string instead of passing the payload through. -/
def NamedOp.isAdminListOp : NamedOp → Bool
  | .getAllBooks => true
  | .getAllUsers => true
  | .getAllBookings => true
  | _ => false

/-! ## AuthProvider (src/contexts/AuthContext.js) -/

/-- `logout` (AuthContext lines 98-104): remove both storage keys,
`setToken(null)`, `setCurrentUser(null)`.  No network argument — the
operation performs no network call by construction. -/
def AuthProvider.logout (s : AppState) : AppState :=
  { s with storage := { token := none, userInfo := none },
           token := .vNull, currentUser := .vNull }

/-- Mounting the provider (AuthContext lines 14-17): `token` React
state starts as `localStorage.getItem('token')` (`null` when the key
is absent), `currentUser` starts as `null`, `loading` as `true`. -/
def AuthProvider.mount (store : Storage) : AppState :=
  { storage := store, navigations := [],
    token := match store.token with
      | some tk => JsValue.vStr tk
      | none => JsValue.vNull,
    currentUser := .vNull, loading := true }

/-- The hydration effect (AuthContext lines 19-38, `initializeAuth`):
when the `token` state is truthy, read the `userInfo` key; when that
is truthy, `JSON.parse` it into `currentUser`, and on a parse error
run the full `logout` teardown.  `loading` is cleared at the end in
every branch. -/
def AuthProvider.initAuth (s : AppState) : AppState :=
  let s2 :=
    if jsTruthy s.token then
      match s.storage.userInfo with
      | some ui =>
        if ui ≠ "" then
          match jsonParse ui with
          | some parsed => { s with currentUser := parsed }
          | none => AuthProvider.logout s
        else s
      | none => s
    else s
  { s2 with loading := false }

/-- Application start: mount the provider over the persisted storage,
then run the hydration effect once. -/
def AuthProvider.hydrate (store : Storage) : AppState :=
  AuthProvider.initAuth (AuthProvider.mount store)

/-- The credentials object `login` sends: `{ username, password }`. -/
def credsObj (username password : String) : JsValue :=
  .vObj [("username", .vStr username), ("password", .vStr password)]

/-- The fixed result the `catch` in `login` returns. -/
def loginCatchResult : GatewayResult :=
  { success := false, data := none,
    error := some (.vStr "An unexpected error occurred during login") }

/-- The continuation of `login` once the gateway call has resolved
(AuthContext lines 45-67): on a success result destructure
`{token, username, role}` out of `result.data` — when that value is
`null`/`undefined`/absent the destructuring throws and the catch
returns the fixed message — persist the token (string-coerced) and
the serialized `{username, role}` object and update the in-memory
state; on a failure result return it unchanged.  The `finally` clears
`loading` on every path. -/
def loginFinish (st2 : AppState) (result : GatewayResult) : AppState × GatewayResult :=
  if result.success then
    match result.data with
    | some JsValue.vNull => ({ st2 with loading := false }, loginCatchResult)
    | some JsValue.vUndefined => ({ st2 with loading := false }, loginCatchResult)
    | some d =>
      let tok := d.get "token"
      let user := d.get "username"
      let role := d.get "role"
      let userInfo := JsValue.vObj [("username", user), ("role", role)]
      ({ st2 with
          storage := { token := some (jsToString tok),
                       userInfo := some (jsonStringifyStr userInfo) },
          token := tok, currentUser := userInfo, loading := false },
       { success := true, data := none, error := none })
    | none => ({ st2 with loading := false }, loginCatchResult)
  else
    ({ st2 with loading := false }, result)

/-- `login` (AuthContext lines 40-68): set `loading`, delegate to
`apiService.login` with `{username, password}`, then run the
continuation above on the result. -/
def AuthProvider.login (t : Transport) (st : AppState) (username password : String) :
    AppState × GatewayResult :=
  let pr := APIService.login t { st with loading := true } (credsObj username password)
  loginFinish pr.1 pr.2

/-- `register` (AuthContext lines 70-96): set `loading`, delegate to
`apiService.register`; on success return `{success: true}` without
touching session state, on failure return the result unchanged;
`loading` cleared in the `finally`. -/
def AuthProvider.register (t : Transport) (st : AppState) (userData : JsValue) :
    AppState × GatewayResult :=
  let st1 := { st with loading := true }
  let pr := APIService.register t st1 userData
  if pr.2.success then
    ({ pr.1 with loading := false }, { success := true, data := none, error := none })
  else
    ({ pr.1 with loading := false }, pr.2)

/-- `isAdmin` (AuthContext lines 106-108):
`currentUser?.role === 'ROLE_ADMIN'`. -/
def isAdmin (s : AppState) : Bool :=
  strictEqStr (optChain s.currentUser "role") "ROLE_ADMIN"

/-- `isUser` (AuthContext lines 110-112):
`currentUser?.role === 'ROLE_USER'`. -/
def isUser (s : AppState) : Bool :=
  strictEqStr (optChain s.currentUser "role") "ROLE_USER"

/-- `isLoggedIn` (AuthContext lines 114-116): `!!token && !!currentUser`. -/
def isLoggedIn (s : AppState) : Bool :=
  jsTruthy s.token && jsTruthy s.currentUser

/-- `getUserDisplayName` (AuthContext lines 118-120):
`currentUser?.username || 'Guest'`. -/
def getUserDisplayName (s : AppState) : JsValue :=
  let u := optChain s.currentUser "username"
  if jsTruthy u then u else .vStr "Guest"

/-- The `{username, role}` object as stored in memory after login or
hydration, with both fields strings. -/
def userObj (un rl : String) : JsValue :=
  .vObj [("username", .vStr un), ("role", .vStr rl)]

/-- An application state whose session fields have the shapes the
spec data model allows: `token` a string or `null`, `currentUser` a
`{username, role}` object with `role` one of the two role strings, or
`null`. -/
def SpecSession (s : AppState) : Prop :=
  (s.token = .vNull ∨ ∃ tk, s.token = .vStr tk) ∧
  (s.currentUser = .vNull ∨
    ∃ un rl, s.currentUser = userObj un rl ∧ (rl = "ROLE_USER" ∨ rl = "ROLE_ADMIN"))

/-- A state with no session: empty storage, `null` token and user. -/
def anonState : AppState :=
  { storage := { token := none, userInfo := none }, navigations := [],
    token := .vNull, currentUser := .vNull, loading := false }

/-- A mock backend whose login endpoint answers 200 with
`{token: "t1", username: "alice", role: "ROLE_USER"}`. -/
def loginOkResp : HttpResponse where
  status := 200
  data := .vObj [("token", .vStr "t1"), ("username", .vStr "alice"), ("role", .vStr "ROLE_USER")]

/-- The transport answering every request with `loginOkResp`. -/
def loginOkTransport : Transport := constResp loginOkResp

/-- A logged-in state: stored and in-memory token `"old"`, user
alice with the member role. -/
def aliceState : AppState where
  storage :=
    { token := some "old",
      userInfo := some "\x7b\"username\":\"alice\",\"role\":\"ROLE_USER\"\x7d" }
  navigations := []
  token := .vStr "old"
  currentUser := userObj "alice" "ROLE_USER"
  loading := false

/-- A session state whose token is the empty string while a
well-formed user is present. -/
def emptyTokenState : AppState where
  storage :=
    { token := some "",
      userInfo := some "\x7b\"username\":\"alice\",\"role\":\"ROLE_USER\"\x7d" }
  navigations := []
  token := .vStr ""
  currentUser := userObj "alice" "ROLE_USER"
  loading := false

/-- A concrete argument bundle for instantiating catalog operations. -/
def argsA : OpArgs where
  body := .vObj [("title", .vStr "Dune")]
  idStr := "1"
  query := "dune"
  message := "hello"
  language := "en"
  quantity := 3

/-! ## Helper lemmas -/

theorem axiosCall_fst (t : Transport) (st : AppState) (config : Request)
    (w : HttpError → GatewayResult) :
    (axiosCall t st config w).1 = (runAxios t st config).1 := by
  unfold axiosCall
  rcases runAxios t st config with ⟨st2, out⟩
  cases out <;> rfl

theorem runAxios_constNetErr (st : AppState) (config : Request) (m : String) :
    runAxios (constNetErr m) st config = (st, .error { response := none, message := m }) := rfl

theorem runAxios_constResp_fail (st : AppState) (config : Request) (r : HttpResponse)
    (hr : ¬(200 ≤ r.status ∧ r.status < 300)) :
    runAxios (constResp r) st config =
      (applyResponseInterceptorErr st (httpErrorOf r), .error (httpErrorOf r)) := by
  unfold runAxios constResp
  dsimp only
  rw [if_neg hr]

theorem runAxios_constResp_ok (st : AppState) (config : Request) (r : HttpResponse)
    (hr : 200 ≤ r.status ∧ r.status < 300) :
    runAxios (constResp r) st config = (st, .ok r) := by
  unfold runAxios constResp
  dsimp only
  rw [if_pos hr]

theorem axiosCall_constNetErr (st : AppState) (config : Request) (m : String)
    (w : HttpError → GatewayResult) :
    axiosCall (constNetErr m) st config w = (st, w { response := none, message := m }) := rfl

theorem axiosCall_constResp_fail (st : AppState) (config : Request) (r : HttpResponse)
    (w : HttpError → GatewayResult) (hr : ¬(200 ≤ r.status ∧ r.status < 300)) :
    axiosCall (constResp r) st config w =
      (applyResponseInterceptorErr st (httpErrorOf r), w (httpErrorOf r)) := by
  unfold axiosCall
  rw [runAxios_constResp_fail st config r hr]

theorem axiosCall_constResp_ok (st : AppState) (config : Request) (r : HttpResponse)
    (w : HttpError → GatewayResult) (hr : 200 ≤ r.status ∧ r.status < 300) :
    axiosCall (constResp r) st config w =
      (st, { success := true, data := some r.data, error := none }) := by
  unfold axiosCall
  rw [runAxios_constResp_ok st config r hr]

theorem runNamedOp_eq (t : Transport) (st : AppState) (op : NamedOp) (a : OpArgs) :
    runNamedOp t st op a = axiosCall t st (opRequest op a) (opFailWrap op) := by
  cases op <;> rfl

theorem opFailWrap_success (op : NamedOp) (e : HttpError) :
    (opFailWrap op e).success = false := by
  cases op <;> rfl

theorem opFailWrap_error_isSome (op : NamedOp) (e : HttpError) :
    ((opFailWrap op e).error).isSome = true := by
  cases op <;> rfl

theorem opFailWrap_data_of_isListOp (op : NamedOp) (e : HttpError) (h : op.isListOp = true) :
    (opFailWrap op e).data = some (.vArr []) := by
  cases op <;> first
    | rfl
    | simp [NamedOp.isListOp] at h

theorem errorField_of_truthy (r : HttpResponse) (fallback : String)
    (hd : jsTruthy r.data = true) :
    errorField (httpErrorOf r) fallback = r.data := by
  unfold errorField httpErrorOf
  simp [hd]

theorem opFailWrap_error_verbatim (op : NamedOp) (r : HttpResponse)
    (hop : op.isAdminListOp = false) (hd : jsTruthy r.data = true) :
    (opFailWrap op (httpErrorOf r)).error = some r.data := by
  cases op <;>
    simp_all [NamedOp.isAdminListOp, opFailWrap, failPlain, failList, errorField_of_truthy]

theorem applyResponseInterceptorErr_401 (st : AppState) (r : HttpResponse)
    (h : r.status = 401) :
    applyResponseInterceptorErr st (httpErrorOf r) =
      { st with storage := { token := none, userInfo := none },
                navigations := st.navigations ++ ["/login"] } := by
  unfold applyResponseInterceptorErr httpErrorOf
  simp [h]

theorem applyResponseInterceptorErr_non401 (st : AppState) (r : HttpResponse)
    (h : r.status ≠ 401) :
    applyResponseInterceptorErr st (httpErrorOf r) = st := by
  unfold applyResponseInterceptorErr httpErrorOf
  simp [h]

theorem adminListErrorText_resp (label : String) (r : HttpResponse)
    (hd : jsTruthy r.data = true) :
    adminListErrorText label (httpErrorOf r) =
      label ++ ": " ++ toString r.status ++ " " ++ jsToString r.data := by
  unfold adminListErrorText httpErrorOf
  simp [hd]

theorem runAxios_state_401 (st : AppState) (config : Request) (r : HttpResponse)
    (h : r.status = 401) :
    (runAxios (constResp r) st config).1 =
      { st with storage := { token := none, userInfo := none },
                navigations := st.navigations ++ ["/login"] } := by
  rw [runAxios_constResp_fail st config r (by omega)]
  exact applyResponseInterceptorErr_401 st r h

theorem runAxios_state_non401 (st : AppState) (config : Request) (r : HttpResponse)
    (h : r.status ≠ 401) :
    (runAxios (constResp r) st config).1 = st := by
  by_cases h2 : 200 ≤ r.status ∧ r.status < 300
  · rw [runAxios_constResp_ok st config r h2]
  · rw [runAxios_constResp_fail st config r h2]
    exact applyResponseInterceptorErr_non401 st r h

/-! ## Claims -/

/-- C1 (amended): every wrapped catalog operation absorbs any transport
failure — network error or non-2xx status — into a
`{success: false, error: ...}` result and, being a total function into
`GatewayResult`, cannot raise.  The generic `post(endpoint, data)` and
`get(endpoint)` helpers are excluded: they have no try/catch, so a
transport failure propagates to the caller as a rejection
(`Except.error`). -/
theorem claim_C1_amended (st : AppState) (op : NamedOp) (a : OpArgs) (m : String)
    (r : HttpResponse) (endpoint : String) (body : JsValue)
    (hr : ¬(200 ≤ r.status ∧ r.status < 300)) :
    ((runNamedOp (constNetErr m) st op a).2.success = false ∧
      ((runNamedOp (constNetErr m) st op a).2.error).isSome = true) ∧
    ((runNamedOp (constResp r) st op a).2.success = false ∧
      ((runNamedOp (constResp r) st op a).2.error).isSome = true) ∧
    (APIService.get (constNetErr m) st endpoint).2 =
      .error { response := none, message := m } ∧
    (APIService.post (constNetErr m) st endpoint body).2 =
      .error { response := none, message := m } := by
  refine ⟨⟨?_, ?_⟩, ⟨?_, ?_⟩, rfl, rfl⟩
  · rw [runNamedOp_eq, axiosCall_constNetErr]
    exact opFailWrap_success op _
  · rw [runNamedOp_eq, axiosCall_constNetErr]
    exact opFailWrap_error_isSome op _
  · rw [runNamedOp_eq, axiosCall_constResp_fail st (opRequest op a) r (opFailWrap op) hr]
    exact opFailWrap_success op _
  · rw [runNamedOp_eq, axiosCall_constResp_fail st (opRequest op a) r (opFailWrap op) hr]
    exact opFailWrap_error_isSome op _

/-- C1 witness: at a concrete failing transport the catalog login
operation yields a failure result while the generic `get` helper
propagates the rejection. -/
theorem claim_C1_witness :
    ¬(200 ≤ 500 ∧ 500 < 300) ∧
    ((runNamedOp (constResp { status := 500, data := .vStr "oops" }) anonState .login argsA).2.success
      = false) ∧
    (APIService.get (constNetErr "timeout of 10000ms exceeded") anonState "/api/user/bookings").2 =
      .error { response := none, message := "timeout of 10000ms exceeded" } :=
  ⟨by decide,
   (claim_C1_amended anonState .login argsA "timeout of 10000ms exceeded"
      { status := 500, data := .vStr "oops" } "/api/user/bookings" .vNull (by decide)).2.1.1,
   (claim_C1_amended anonState .login argsA "timeout of 10000ms exceeded"
      { status := 500, data := .vStr "oops" } "/api/user/bookings" .vNull (by decide)).2.2.1⟩

/-- C1 counterexample: the claim extends the no-raise guarantee to the
generic `get`/`post` helpers, but those have no try/catch: on a network
failure `APIService.get` does not return a `{success: false, ...}`
result — the rejection propagates past the gateway boundary. -/
theorem claim_C1_counterexample :
    (APIService.get (constNetErr "timeout of 10000ms exceeded") anonState
        "/api/user/books/available").2 =
      Except.error { response := none, message := "timeout of 10000ms exceeded" } := rfl

/-- C2: every gateway call — any catalog operation, or any request sent
through the shared axios instance — that receives a 401 response clears
both storage keys and appends exactly one navigation to `/login`;
a response with any other status, or a network-level failure, changes
neither the storage nor the navigation record. -/
theorem claim_C2 (st : AppState) (r : HttpResponse) (m : String) :
    (∀ (op : NamedOp) (a : OpArgs),
      (r.status = 401 →
        (runNamedOp (constResp r) st op a).1.storage = { token := none, userInfo := none } ∧
        (runNamedOp (constResp r) st op a).1.navigations = st.navigations ++ ["/login"]) ∧
      (r.status ≠ 401 →
        (runNamedOp (constResp r) st op a).1.storage = st.storage ∧
        (runNamedOp (constResp r) st op a).1.navigations = st.navigations) ∧
      ((runNamedOp (constNetErr m) st op a).1.storage = st.storage ∧
        (runNamedOp (constNetErr m) st op a).1.navigations = st.navigations)) ∧
    (∀ config : Request,
      (r.status = 401 →
        (runAxios (constResp r) st config).1.storage = { token := none, userInfo := none } ∧
        (runAxios (constResp r) st config).1.navigations = st.navigations ++ ["/login"]) ∧
      (r.status ≠ 401 →
        (runAxios (constResp r) st config).1.storage = st.storage ∧
        (runAxios (constResp r) st config).1.navigations = st.navigations) ∧
      ((runAxios (constNetErr m) st config).1.storage = st.storage ∧
        (runAxios (constNetErr m) st config).1.navigations = st.navigations)) := by
  constructor
  · intro op a
    refine ⟨?_, ?_, ?_, ?_⟩
    · intro h
      rw [runNamedOp_eq, axiosCall_fst, runAxios_state_401 st (opRequest op a) r h]
      exact ⟨rfl, rfl⟩
    · intro h
      rw [runNamedOp_eq, axiosCall_fst, runAxios_state_non401 st (opRequest op a) r h]
      exact ⟨rfl, rfl⟩
    · rw [runNamedOp_eq, axiosCall_fst, runAxios_constNetErr]
    · rw [runNamedOp_eq, axiosCall_fst, runAxios_constNetErr]
  · intro config
    refine ⟨?_, ?_, ?_, ?_⟩
    · intro h
      rw [runAxios_state_401 st config r h]
      exact ⟨rfl, rfl⟩
    · intro h
      rw [runAxios_state_non401 st config r h]
      exact ⟨rfl, rfl⟩
    · rw [runAxios_constNetErr]
    · rw [runAxios_constNetErr]

/-- C2 witness: a concrete 401 on the member bookings list clears both
keys and records one `/login` navigation. -/
theorem claim_C2_witness :
    ({ status := 401, data := .vStr "Unauthorized" } : HttpResponse).status = 401 ∧
    (runNamedOp (constResp { status := 401, data := .vStr "Unauthorized" }) aliceState
        .getUserBookings argsA).1.storage = { token := none, userInfo := none } ∧
    (runNamedOp (constResp { status := 401, data := .vStr "Unauthorized" }) aliceState
        .getUserBookings argsA).1.navigations = aliceState.navigations ++ ["/login"] :=
  ⟨rfl,
   (((claim_C2 aliceState { status := 401, data := .vStr "Unauthorized" } "m").1
      .getUserBookings argsA).1 rfl).1,
   (((claim_C2 aliceState { status := 401, data := .vStr "Unauthorized" } "m").1
      .getUserBookings argsA).1 rfl).2⟩

/-- C3: logging in as alice/secret against a backend answering
`{token: "t1", username: "alice", role: "ROLE_USER"}` persists the
token and the serialized `{username, role}` blob, sets the in-memory
token and user to the same values, returns `{success: true}`, and
afterwards `isUser()` holds while `isAdmin()` does not. -/
theorem claim_C3 :
    (AuthProvider.login loginOkTransport anonState "alice" "secret").1.storage.token =
      some "t1" ∧
    (AuthProvider.login loginOkTransport anonState "alice" "secret").1.storage.userInfo =
      some "\x7b\"username\":\"alice\",\"role\":\"ROLE_USER\"\x7d" ∧
    (AuthProvider.login loginOkTransport anonState "alice" "secret").1.token = .vStr "t1" ∧
    (AuthProvider.login loginOkTransport anonState "alice" "secret").1.currentUser =
      userObj "alice" "ROLE_USER" ∧
    (AuthProvider.login loginOkTransport anonState "alice" "secret").2 =
      { success := true, data := none, error := none } ∧
    isUser (AuthProvider.login loginOkTransport anonState "alice" "secret").1 = true ∧
    isAdmin (AuthProvider.login loginOkTransport anonState "alice" "secret").1 = false :=
  ⟨rfl, rfl, rfl, rfl, rfl, rfl, rfl⟩

/-- C5: `logout` clears both storage keys and both in-memory fields,
leaves the navigation record untouched (its type takes no transport,
so no network call can occur), is idempotent, and from an already
logged-out state it is a no-op. -/
theorem claim_C5 (s : AppState) :
    (AuthProvider.logout s).storage.token = none ∧
    (AuthProvider.logout s).storage.userInfo = none ∧
    (AuthProvider.logout s).token = .vNull ∧
    (AuthProvider.logout s).currentUser = .vNull ∧
    (AuthProvider.logout s).navigations = s.navigations ∧
    AuthProvider.logout (AuthProvider.logout s) = AuthProvider.logout s ∧
    (s.storage.token = none → s.storage.userInfo = none → s.token = .vNull →
      s.currentUser = .vNull → AuthProvider.logout s = s) := by
  obtain ⟨⟨tk0, ui0⟩, nav, tk, cu, ld⟩ := s
  refine ⟨rfl, rfl, rfl, rfl, rfl, rfl, ?_⟩
  intro h1 h2 h3 h4
  simp only at h1 h2 h3 h4
  subst h1 h2 h3 h4
  rfl

/-- C5 witness: from the anonymous state, logout is a no-op. -/
theorem claim_C5_witness :
    (anonState.storage.token = none ∧ anonState.storage.userInfo = none ∧
      anonState.token = .vNull ∧ anonState.currentUser = .vNull) ∧
    AuthProvider.logout anonState = anonState :=
  ⟨⟨rfl, rfl, rfl, rfl⟩, (claim_C5 anonState).2.2.2.2.2.2 rfl rfl rfl rfl⟩

/-- C6: each of the seven list-returning operations (available books,
search, my bookings, active bookings, all books, all users, all
bookings) responds to any transport failure with `success: false`, an
error value, and `data` equal to the empty array — never absent. -/
theorem claim_C6 (st : AppState) (op : NamedOp) (a : OpArgs) (m : String) (r : HttpResponse)
    (hop : op.isListOp = true) (hr : ¬(200 ≤ r.status ∧ r.status < 300)) :
    ((runNamedOp (constNetErr m) st op a).2.data = some (.vArr []) ∧
      (runNamedOp (constNetErr m) st op a).2.success = false ∧
      ((runNamedOp (constNetErr m) st op a).2.error).isSome = true) ∧
    ((runNamedOp (constResp r) st op a).2.data = some (.vArr []) ∧
      (runNamedOp (constResp r) st op a).2.success = false ∧
      ((runNamedOp (constResp r) st op a).2.error).isSome = true) := by
  refine ⟨⟨?_, ?_, ?_⟩, ⟨?_, ?_, ?_⟩⟩
  · rw [runNamedOp_eq, axiosCall_constNetErr]
    exact opFailWrap_data_of_isListOp op _ hop
  · rw [runNamedOp_eq, axiosCall_constNetErr]
    exact opFailWrap_success op _
  · rw [runNamedOp_eq, axiosCall_constNetErr]
    exact opFailWrap_error_isSome op _
  · rw [runNamedOp_eq, axiosCall_constResp_fail st (opRequest op a) r (opFailWrap op) hr]
    exact opFailWrap_data_of_isListOp op _ hop
  · rw [runNamedOp_eq, axiosCall_constResp_fail st (opRequest op a) r (opFailWrap op) hr]
    exact opFailWrap_success op _
  · rw [runNamedOp_eq, axiosCall_constResp_fail st (opRequest op a) r (opFailWrap op) hr]
    exact opFailWrap_error_isSome op _

/-- C6 witness: listing available books against a backend returning a
500 yields `success: false` with `data: []`. -/
theorem claim_C6_witness :
    (NamedOp.getAvailableBooks.isListOp = true ∧ ¬(200 ≤ 500 ∧ 500 < 300)) ∧
    (runNamedOp (constResp { status := 500, data := .vStr "server error" }) anonState
        .getAvailableBooks argsA).2.data = some (.vArr []) ∧
    (runNamedOp (constResp { status := 500, data := .vStr "server error" }) anonState
        .getAvailableBooks argsA).2.success = false :=
  ⟨⟨rfl, by decide⟩,
   (claim_C6 anonState .getAvailableBooks argsA "m"
      { status := 500, data := .vStr "server error" } rfl (by decide)).2.1,
   (claim_C6 anonState .getAvailableBooks argsA "m"
      { status := 500, data := .vStr "server error" } rfl (by decide)).2.2.1⟩

theorem loginFinish_loading (st2 : AppState) (res : GatewayResult) :
    (loginFinish st2 res).1.loading = false := by
  rcases res with ⟨su, da, er⟩
  cases su
  · rfl
  · rcases da with _ | d
    · rfl
    · cases d <;> rfl

theorem loginFinish_fail (st2 : AppState) (res : GatewayResult) (h : res.success = false) :
    loginFinish st2 res = ({ st2 with loading := false }, res) := by
  unfold loginFinish
  rw [h]
  rfl

/-- C4 counterexample: from a logged-in state, a login attempt that the
backend rejects with 401 is a gateway failure — the claim says both
persisted storage keys are left unchanged, but the response
interceptor clears them (and navigates) before `login` returns the
failure result. -/
theorem claim_C4_counterexample :
    aliceState.storage.token = some "old" ∧
    (AuthProvider.login (constResp { status := 401, data := .vStr "Invalid credentials" })
        aliceState "alice" "wrong").2 =
      { success := false, data := none, error := some (.vStr "Invalid credentials") } ∧
    (AuthProvider.login (constResp { status := 401, data := .vStr "Invalid credentials" })
        aliceState "alice" "wrong").1.storage.token = none ∧
    (AuthProvider.login (constResp { status := 401, data := .vStr "Invalid credentials" })
        aliceState "alice" "wrong").1.storage.userInfo = none ∧
    (AuthProvider.login (constResp { status := 401, data := .vStr "Invalid credentials" })
        aliceState "alice" "wrong").1.navigations = ["/login"] :=
  ⟨rfl, rfl, rfl, rfl, rfl⟩

/-- C4 (amended): `login` clears `loading` on every path.  On a
gateway failure it returns the gateway's failure result unchanged and
leaves the in-memory `token` and `currentUser` unchanged; the
persisted keys are also unchanged for network-level failures and
non-401 error statuses, but on a 401 the gateway's response
interceptor has already cleared both keys and navigated to the login
screen before `login` returns.  On an unexpected exception (a success
response whose payload is null/undefined, so the destructuring
throws) it returns the fixed message without mutating any session
state. -/
theorem claim_C4_amended (st : AppState) (u p m : String) (r : HttpResponse) :
    (∀ t : Transport, (AuthProvider.login t st u p).1.loading = false) ∧
    ((AuthProvider.login (constNetErr m) st u p).2 =
        { success := false, data := none, error := some (.vStr "Login failed") } ∧
      (AuthProvider.login (constNetErr m) st u p).1.storage = st.storage ∧
      (AuthProvider.login (constNetErr m) st u p).1.navigations = st.navigations ∧
      (AuthProvider.login (constNetErr m) st u p).1.token = st.token ∧
      (AuthProvider.login (constNetErr m) st u p).1.currentUser = st.currentUser) ∧
    (¬(200 ≤ r.status ∧ r.status < 300) → r.status ≠ 401 →
      ((AuthProvider.login (constResp r) st u p).2 =
          { success := false, data := none,
            error := some (errorField (httpErrorOf r) "Login failed") } ∧
        (AuthProvider.login (constResp r) st u p).1.storage = st.storage ∧
        (AuthProvider.login (constResp r) st u p).1.navigations = st.navigations ∧
        (AuthProvider.login (constResp r) st u p).1.token = st.token ∧
        (AuthProvider.login (constResp r) st u p).1.currentUser = st.currentUser)) ∧
    (r.status = 401 →
      ((AuthProvider.login (constResp r) st u p).2 =
          { success := false, data := none,
            error := some (errorField (httpErrorOf r) "Login failed") } ∧
        (AuthProvider.login (constResp r) st u p).1.token = st.token ∧
        (AuthProvider.login (constResp r) st u p).1.currentUser = st.currentUser ∧
        (AuthProvider.login (constResp r) st u p).1.storage =
          { token := none, userInfo := none } ∧
        (AuthProvider.login (constResp r) st u p).1.navigations =
          st.navigations ++ ["/login"])) ∧
    (200 ≤ r.status ∧ r.status < 300 → r.data = .vNull ∨ r.data = .vUndefined →
      ((AuthProvider.login (constResp r) st u p).2 = loginCatchResult ∧
        (AuthProvider.login (constResp r) st u p).1.storage = st.storage ∧
        (AuthProvider.login (constResp r) st u p).1.navigations = st.navigations ∧
        (AuthProvider.login (constResp r) st u p).1.token = st.token ∧
        (AuthProvider.login (constResp r) st u p).1.currentUser = st.currentUser)) := by
  refine ⟨?_, ⟨rfl, rfl, rfl, rfl, rfl⟩, ?_, ?_, ?_⟩
  · intro t
    unfold AuthProvider.login
    exact loginFinish_loading _ _
  · intro hr h401
    have hgw := axiosCall_constResp_fail { st with loading := true }
      (postReq "/api/auth/login" (credsObj u p)) r (failPlain "Login failed") hr
    have hint := applyResponseInterceptorErr_non401 { st with loading := true } r h401
    unfold AuthProvider.login APIService.login
    rw [hgw, hint, loginFinish_fail _ _ rfl]
    exact ⟨rfl, rfl, rfl, rfl, rfl⟩
  · intro h401
    have hgw := axiosCall_constResp_fail { st with loading := true }
      (postReq "/api/auth/login" (credsObj u p)) r (failPlain "Login failed") (by omega)
    have hint := applyResponseInterceptorErr_401 { st with loading := true } r h401
    unfold AuthProvider.login APIService.login
    rw [hgw, hint, loginFinish_fail _ _ rfl]
    exact ⟨rfl, rfl, rfl, rfl, rfl⟩
  · intro hstat hdata
    have hgw := axiosCall_constResp_ok { st with loading := true }
      (postReq "/api/auth/login" (credsObj u p)) r (failPlain "Login failed") hstat
    unfold AuthProvider.login APIService.login
    rw [hgw]
    rcases hdata with hd | hd <;> rw [hd] <;> exact ⟨rfl, rfl, rfl, rfl, rfl⟩

/-- C4 witness: a concrete 500 during login is propagated as the
gateway failure result with the session storage untouched. -/
theorem claim_C4_witness :
    (¬(200 ≤ 500 ∧ 500 < 300) ∧ (500 : Nat) ≠ 401) ∧
    (AuthProvider.login (constResp { status := 500, data := .vStr "srv" }) aliceState
        "alice" "pw").2 =
      { success := false, data := none,
        error := some (errorField (httpErrorOf { status := 500, data := .vStr "srv" })
          "Login failed") } ∧
    (AuthProvider.login (constResp { status := 500, data := .vStr "srv" }) aliceState
        "alice" "pw").1.storage = aliceState.storage :=
  ⟨⟨by decide, by decide⟩,
   ((claim_C4_amended aliceState "alice" "pw" "m"
      { status := 500, data := .vStr "srv" }).2.2.1 (by decide) (by decide)).1,
   ((claim_C4_amended aliceState "alice" "pw" "m"
      { status := 500, data := .vStr "srv" }).2.2.1 (by decide) (by decide)).2.1⟩

/-- C7 counterexample: a state whose token is the empty string and
whose user is a well-formed member — both session fields are present,
yet `isLoggedIn()` is false, because `!!token` treats the empty
string as absent. -/
theorem claim_C7_counterexample :
    emptyTokenState.token = .vStr "" ∧
    emptyTokenState.currentUser = userObj "alice" "ROLE_USER" ∧
    isLoggedIn emptyTokenState = false :=
  ⟨rfl, rfl, rfl⟩

/-- C7 (amended): over states of the spec data-model shape, `isAdmin`
holds exactly when a user with the admin role is present, `isUser`
exactly when a user with the member role is present, and `isLoggedIn`
exactly when a *non-empty* token and a user are both present.  All
three predicates are pure functions of the state (type
`AppState → Bool`). -/
theorem claim_C7_amended (s : AppState) (hs : SpecSession s) :
    (isAdmin s = true ↔ ∃ un, s.currentUser = userObj un "ROLE_ADMIN") ∧
    (isUser s = true ↔ ∃ un, s.currentUser = userObj un "ROLE_USER") ∧
    (isLoggedIn s = true ↔
      ((∃ tk, s.token = .vStr tk ∧ tk ≠ "") ∧ s.currentUser ≠ .vNull)) := by
  obtain ⟨ht, hu⟩ := hs
  refine ⟨?_, ?_, ?_⟩
  · rcases hu with hcu | ⟨un, rl, hcu, _⟩
    · simp [isAdmin, optChain, strictEqStr, hcu, userObj]
    · simp [isAdmin, optChain, strictEqStr, hcu, userObj, JsValue.get, getField]
  · rcases hu with hcu | ⟨un, rl, hcu, _⟩
    · simp [isUser, optChain, strictEqStr, hcu, userObj]
    · simp [isUser, optChain, strictEqStr, hcu, userObj, JsValue.get, getField]
  · rcases ht with ht | ⟨tk0, ht⟩ <;> rcases hu with hcu | ⟨un, rl, hcu, _⟩ <;>
      simp [isLoggedIn, jsTruthy, ht, hcu, userObj]

/-- C7 witness: the alice member state satisfies the data-model shape,
`isUser` holds and `isLoggedIn` holds. -/
theorem claim_C7_witness :
    SpecSession aliceState ∧ isUser aliceState = true ∧ isLoggedIn aliceState = true := by
  have hs : SpecSession aliceState :=
    ⟨Or.inr ⟨"old", rfl⟩, Or.inr ⟨"alice", "ROLE_USER", rfl, Or.inl rfl⟩⟩
  refine ⟨hs, ?_, ?_⟩
  · exact ((claim_C7_amended aliceState hs).2.1).mpr ⟨"alice", rfl⟩
  · exact ((claim_C7_amended aliceState hs).2.2).mpr
      ⟨⟨"old", rfl, by decide⟩, by simp [aliceState, userObj]⟩

/-- C8 counterexample: the token key holds the empty string — a token
is held, yet the interceptor omits the `Authorization` header because
`if (token)` treats the empty string as absent. -/
theorem claim_C8_counterexample :
    ({ token := some "", userInfo := none } : Storage).token.isSome = true ∧
    (applyRequestInterceptor { token := some "", userInfo := none }
      (getReq "/api/user/bookings")).authHeader = none :=
  ⟨rfl, rfl⟩

/-- C8 (amended): on any request built without a preset header (as
every catalog operation builds them), the interceptor attaches
`Authorization: Bearer <token>` exactly when the stored token is
present and non-empty, and leaves the header entirely absent when
the key is absent or holds the empty string. -/
theorem claim_C8_amended (store : Storage) (config : Request) (hc : config.authHeader = none) :
    (∀ tk, store.token = some tk → tk ≠ "" →
      (applyRequestInterceptor store config).authHeader = some ("Bearer " ++ tk)) ∧
    (store.token = none ∨ store.token = some "" →
      (applyRequestInterceptor store config).authHeader = none) ∧
    (∀ (op : NamedOp) (a : OpArgs), (opRequest op a).authHeader = none) := by
  refine ⟨?_, ?_, ?_⟩
  · intro tk htk hne
    simp [applyRequestInterceptor, htk, hne]
  · rintro (h | h) <;> simp [applyRequestInterceptor, h, hc]
  · intro op a
    cases op <;> rfl

/-- C8 witness: with the stored token `"old"`, the member bookings
request carries `Authorization: Bearer old`; with no stored token the
header is absent. -/
theorem claim_C8_witness :
    ((getReq "/api/user/bookings").authHeader = none ∧
      aliceState.storage.token = some "old" ∧ "old" ≠ "") ∧
    (applyRequestInterceptor aliceState.storage (getReq "/api/user/bookings")).authHeader =
      some ("Bearer " ++ "old") ∧
    (applyRequestInterceptor anonState.storage (getReq "/api/user/bookings")).authHeader = none :=
  ⟨⟨rfl, rfl, by decide⟩,
   (claim_C8_amended aliceState.storage (getReq "/api/user/bookings") rfl).1 "old" rfl
     (by decide),
   (claim_C8_amended anonState.storage (getReq "/api/user/bookings") rfl).2.1 (Or.inl rfl)⟩

/-- C9 counterexample: `getAllBooks` against a 500 whose body is
`"boom"` reports the formatted text
`Failed to fetch all books: 500 boom`, which differs from the
verbatim payload `"boom"` the claim requires. -/
theorem claim_C9_counterexample :
    (APIService.getAllBooks (constResp { status := 500, data := .vStr "boom" }) anonState).2.error =
      some (.vStr "Failed to fetch all books: 500 boom") ∧
    "Failed to fetch all books: 500 boom" ≠ "boom" :=
  ⟨rfl, by decide⟩

/-- C9 (amended): on an HTTP error response with a truthy payload,
every catalog operation other than the three admin list operations
surfaces the payload verbatim as `error`; `getAllBooks`, `getAllUsers`
and `getAllBookings` instead build a formatted string embedding the
status and the string-coerced payload. -/
theorem claim_C9_amended (st : AppState) (op : NamedOp) (a : OpArgs) (r : HttpResponse)
    (hr : ¬(200 ≤ r.status ∧ r.status < 300)) (hd : jsTruthy r.data = true)
    (hop : op.isAdminListOp = false) :
    (runNamedOp (constResp r) st op a).2.error = some r.data ∧
    (runNamedOp (constResp r) st .getAllBooks a).2.error =
      some (.vStr ("Failed to fetch all books: " ++ toString r.status ++ " " ++
        jsToString r.data)) ∧
    (runNamedOp (constResp r) st .getAllUsers a).2.error =
      some (.vStr ("Failed to fetch users: " ++ toString r.status ++ " " ++
        jsToString r.data)) ∧
    (runNamedOp (constResp r) st .getAllBookings a).2.error =
      some (.vStr ("Failed to fetch bookings: " ++ toString r.status ++ " " ++
        jsToString r.data)) := by
  refine ⟨?_, ?_, ?_, ?_⟩
  · rw [runNamedOp_eq, axiosCall_constResp_fail st (opRequest op a) r (opFailWrap op) hr]
    exact opFailWrap_error_verbatim op r hop hd
  · rw [runNamedOp_eq,
      axiosCall_constResp_fail st (opRequest .getAllBooks a) r (opFailWrap .getAllBooks) hr]
    exact congrArg (fun x => some (JsValue.vStr x))
      (adminListErrorText_resp "Failed to fetch all books" r hd)
  · rw [runNamedOp_eq,
      axiosCall_constResp_fail st (opRequest .getAllUsers a) r (opFailWrap .getAllUsers) hr]
    exact congrArg (fun x => some (JsValue.vStr x))
      (adminListErrorText_resp "Failed to fetch users" r hd)
  · rw [runNamedOp_eq,
      axiosCall_constResp_fail st (opRequest .getAllBookings a) r (opFailWrap .getAllBookings) hr]
    exact congrArg (fun x => some (JsValue.vStr x))
      (adminListErrorText_resp "Failed to fetch bookings" r hd)

/-- C9 witness: a 404 with payload `"no such book"` is surfaced
verbatim by `getBookById` while `getAllBooks` formats it. -/
theorem claim_C9_witness :
    (¬(200 ≤ 404 ∧ 404 < 300) ∧ jsTruthy (.vStr "no such book") = true ∧
      NamedOp.getBookById.isAdminListOp = false) ∧
    (runNamedOp (constResp { status := 404, data := .vStr "no such book" }) anonState
        .getBookById argsA).2.error = some (.vStr "no such book") ∧
    (runNamedOp (constResp { status := 404, data := .vStr "no such book" }) anonState
        .getAllBooks argsA).2.error =
      some (.vStr ("Failed to fetch all books: " ++ toString 404 ++ " " ++ "no such book")) :=
  ⟨⟨by decide, rfl, rfl⟩,
   (claim_C9_amended anonState .getBookById argsA
      { status := 404, data := .vStr "no such book" } (by decide) rfl rfl).1,
   (claim_C9_amended anonState .getBookById argsA
      { status := 404, data := .vStr "no such book" } (by decide) rfl rfl).2.1⟩

/-- C10 counterexample: hydrating from a present-but-empty token key
with no stored user performs no teardown — the token stays in storage
and `currentUser` stays absent — but the next request does *not*
attach an `Authorization` header, contradicting the claim that the
stale token is always attached. -/
theorem claim_C10_counterexample :
    (AuthProvider.hydrate { token := some "", userInfo := none }).storage.token = some "" ∧
    (AuthProvider.hydrate { token := some "", userInfo := none }).currentUser = .vNull ∧
    (applyRequestInterceptor
      (AuthProvider.hydrate { token := some "", userInfo := none }).storage
      (getReq "/api/user/bookings")).authHeader = none :=
  ⟨rfl, rfl, rfl⟩

/-- C10 (amended): hydrating from a present token key and an absent
userInfo key performs no teardown: the token remains in storage and
in memory, `currentUser` stays absent, and `isLoggedIn()` is false;
a subsequent request attaches `Authorization: Bearer` with the stale
token exactly when that token is non-empty, and omits the header when
it is the empty string. -/
theorem claim_C10_amended (tk : String) (config : Request) (hc : config.authHeader = none) :
    (AuthProvider.hydrate { token := some tk, userInfo := none }).storage.token = some tk ∧
    (AuthProvider.hydrate { token := some tk, userInfo := none }).storage.userInfo = none ∧
    (AuthProvider.hydrate { token := some tk, userInfo := none }).token = .vStr tk ∧
    (AuthProvider.hydrate { token := some tk, userInfo := none }).currentUser = .vNull ∧
    isLoggedIn (AuthProvider.hydrate { token := some tk, userInfo := none }) = false ∧
    (tk ≠ "" →
      (applyRequestInterceptor
        (AuthProvider.hydrate { token := some tk, userInfo := none }).storage
        config).authHeader = some ("Bearer " ++ tk)) ∧
    (tk = "" →
      (applyRequestInterceptor
        (AuthProvider.hydrate { token := some tk, userInfo := none }).storage
        config).authHeader = none) := by
  have hst : AuthProvider.hydrate { token := some tk, userInfo := none } =
      { storage := { token := some tk, userInfo := none }, navigations := [],
        token := .vStr tk, currentUser := .vNull, loading := false } := by
    unfold AuthProvider.hydrate AuthProvider.mount AuthProvider.initAuth
    by_cases h : jsTruthy (JsValue.vStr tk) = true <;> simp [h]
  rw [hst]
  refine ⟨rfl, rfl, rfl, rfl, by simp [isLoggedIn, jsTruthy], ?_, ?_⟩
  · intro hne
    simp [applyRequestInterceptor, hne]
  · intro he
    simp [applyRequestInterceptor, he, hc]

/-- C10 witness: hydrating with the stale token `"t9"` and no stored
user leaves `isLoggedIn` false while the member bookings request
still carries `Authorization: Bearer t9`. -/
theorem claim_C10_witness :
    ((getReq "/api/user/bookings").authHeader = none ∧ "t9" ≠ "") ∧
    (AuthProvider.hydrate { token := some "t9", userInfo := none }).storage.token = some "t9" ∧
    isLoggedIn (AuthProvider.hydrate { token := some "t9", userInfo := none }) = false ∧
    (applyRequestInterceptor
      (AuthProvider.hydrate { token := some "t9", userInfo := none }).storage
      (getReq "/api/user/bookings")).authHeader = some ("Bearer " ++ "t9") :=
  ⟨⟨rfl, by decide⟩,
   (claim_C10_amended "t9" (getReq "/api/user/bookings") rfl).1,
   (claim_C10_amended "t9" (getReq "/api/user/bookings") rfl).2.2.2.2.1,
   (claim_C10_amended "t9" (getReq "/api/user/bookings") rfl).2.2.2.2.2.1 (by decide)⟩
